import Mathlib

/-!
Verification development for the marmoset dataset-preparation core:
the seeded PRNG (src/domain/rng.ts), the trial generator
(src/domain/trialGenerator.ts), and the bundle seed policy and
validators (src/domain/bundle/bundleBuilder.ts, bundleParser.ts).

JavaScript strings are modelled as lists of characters; JavaScript
numbers appearing as 32-bit quantities are modelled as naturals with
explicit reduction modulo 2 ^ 32; fractional configuration values are
modelled as rationals; code that can throw is modelled in the Except
monad.
-/

namespace MarmosetPrep

/-- A JavaScript string, as a list of characters. -/
abbrev JsStr := List Char

/-- 2 ^ 32, the modulus of all JavaScript 32-bit integer coercions. -/
abbrev U32 : Nat := 2 ^ 32

/-- Math.imul on the unsigned 32-bit residues of its arguments: the bit
pattern of the result is the product reduced modulo 2 ^ 32. -/
def imul (a b : Nat) : Nat := a * b % U32

/-- UTF-16 code units of a string, as charCodeAt enumerates them
(astral code points become surrogate pairs). -/
def utf16Units (s : JsStr) : List Nat :=
  (s.map (fun c =>
    let n := c.toNat
    if n < 65536 then [n]
    else [55296 + (n - 65536) / 1024, 56320 + (n - 65536) % 1024])).flatten

/-- hashStringToInt from src/domain/rng.ts: FNV-1a over the string's
code units, with Math.imul supplying the modular multiplication. -/
def hashStringToInt (units : List Nat) : Nat :=
  units.foldl (fun h c => imul (h ^^^ c) 16777619) 2166136261

/-- One next() call of the mulberry32 closure from src/domain/rng.ts.
State is the accumulator t reduced modulo 2 ^ 32; the result is the new
state together with the 32-bit numerator of the returned double (the
double itself is that numerator divided by 2 ^ 32). -/
def mbNext (t : Nat) : Nat × Nat :=
  let t1 := (t + 0x6d2b79f5) % U32
  let r1 := imul (t1 ^^^ (t1 >>> 15)) (1 ||| t1)
  let r2 := r1 ^^^ ((r1 + imul (r1 ^^^ (r1 >>> 7)) (61 ||| r1)) % U32)
  (t1, r2 ^^^ (r2 >>> 14))

/-- State of the generator created by createRng(seed) after n calls. -/
def sourceState (units : List Nat) : Nat → Nat
  | 0 => hashStringToInt units
  | n + 1 => (mbNext (sourceState units n)).1

/-- Numerator of the n-th (0-based) output of createRng(seed). -/
def sourceOutAt (units : List Nat) (n : Nat) : Nat :=
  (mbNext (sourceState units n)).2

/-- The n-th output of createRng(seed) as the double it denotes. -/
def sourceOutQAt (units : List Nat) (n : Nat) : ℚ :=
  (sourceOutAt units n : ℚ) / (U32 : ℚ)

/-- Modelled from the spec, section 4.1: FNV-1a 32-bit hash — h starts at
0x811C9DC5, and for each unit b, h becomes h XOR b and then
(h * 0x01000193) mod 2 ^ 32. -/
def specFnvHash (bytes : List Nat) : Nat :=
  bytes.foldl (fun h b => (h ^^^ b) * 0x01000193 % U32) 0x811C9DC5

/-- Modelled from the spec, section 4.1: the state update of one next()
call, t = (t + 0x6D2B79F5) mod 2 ^ 32. -/
def specNextState (t : Nat) : Nat := (t + 0x6D2B79F5) % U32

/-- Modelled from the spec, section 4.1: the output of one next() call,
written exactly as the spec's three mixing expressions. -/
def specNextOut (t : Nat) : Nat :=
  let t1 := specNextState t
  let r1 := (t1 ^^^ (t1 >>> 15)) * (1 ||| t1) % U32
  let r2 := (r1 ^^^ (r1 + (r1 ^^^ (r1 >>> 7)) * (61 ||| r1))) % U32
  (r2 ^^^ (r2 >>> 14)) % U32

/-- Spec-side generator state after n calls, seeded by the spec's hash. -/
def specState (units : List Nat) : Nat → Nat
  | 0 => specFnvHash units
  | n + 1 => specNextState (specState units n)

/-- Spec-side n-th output as a rational: numerator divided by 2 ^ 32. -/
def specOutQAt (units : List Nat) (n : Nat) : ℚ :=
  (specNextOut (specState units n) : ℚ) / (U32 : ℚ)

/-- Character-level lowering, the ASCII fragment of String.toLowerCase. -/
def jsToLower (s : JsStr) : JsStr := s.map Char.toLower

/-- The whitespace class trimmed by String.trim. -/
def jsWhitespace (c : Char) : Bool :=
  c == ' ' || c == '\t' || c == '\n' || c == '\r' || c == '\x0b' || c == '\x0c' || c.toNat == 160

/-- String.trim: strip whitespace from both ends. -/
def jsTrim (s : JsStr) : JsStr :=
  ((s.dropWhile jsWhitespace).reverse.dropWhile jsWhitespace).reverse

/-- Digit character in bases up to 36, lowercase as Number.toString yields. -/
def digitChar (d : Nat) : Char :=
  if d < 10 then Char.ofNat (48 + d) else Char.ofNat (87 + d)

/-- Digits of n in the given base, most significant first; fuel bounds the
digit count (32 is ample for every 32-bit quantity handled here). -/
def natDigitsAux (base : Nat) : Nat → Nat → List Char
  | 0, _ => []
  | fuel + 1, n => if n = 0 then [] else natDigitsAux base fuel (n / base) ++ [digitChar (n % base)]

/-- Decimal rendering of a natural, as template-literal interpolation yields. -/
def natToChars (n : Nat) : List Char :=
  if n = 0 then ['0'] else natDigitsAux 10 32 n

/-- Base-36 rendering of a natural, as Number.toString(36) yields. -/
def natToBase36 (n : Nat) : List Char :=
  if n = 0 then ['0'] else natDigitsAux 36 32 n

/-- String.split on a one-character separator, JavaScript semantics:
empty segments are kept, and the empty string splits to one empty segment. -/
def jsSplit (sep : Char) : JsStr → List JsStr
  | [] => [[]]
  | c :: rest =>
    if c = sep then [] :: jsSplit sep rest
    else
      match jsSplit sep rest with
      | [] => [[c]]
      | s :: ss => (c :: s) :: ss

/-- First binding of a key in an association list (object property access;
also Map lookup for maps whose keys were set at most once). -/
def lookupFirstBy {κ α : Type} [DecidableEq κ] (l : List (κ × α)) (k : κ) : Option α :=
  (l.find? (fun p => decide (p.1 = k))).map (·.2)

/-- Last binding of a key: Map lookup when the map was built by repeated
set calls, where later bindings overwrite earlier ones. -/
def lookupLastBy {κ α : Type} [DecidableEq κ] (l : List (κ × α)) (k : κ) : Option α :=
  lookupFirstBy l.reverse k

/-- Replace the binding of an existing key (Map.set on a present key). -/
def setAssoc {κ α : Type} [DecidableEq κ] (l : List (κ × α)) (k : κ) (v : α) : List (κ × α) :=
  l.map (fun p => if p.1 = k then (k, v) else p)

/-- A parsed JSON / dynamic JavaScript value. Numbers are modelled as
rationals (every JSON number of the manifests handled here is exactly
representable). -/
inductive JsVal : Type where
  | str (s : JsStr)
  | num (q : ℚ)
  | bool (b : Bool)
  | null
  | arr (elems : List JsVal)
  | obj (fields : List (JsStr × JsVal))

/-- JavaScript truthiness of a defined value. -/
def jsTruthy : JsVal → Bool
  | .str s => decide (s ≠ [])
  | .num q => decide (q ≠ 0)
  | .bool b => b
  | .null => false
  | .arr _ => true
  | .obj _ => true

/-- The a || b operator over possibly-undefined values (none = undefined). -/
def jsOrO (a b : Option JsVal) : Option JsVal :=
  match a with
  | some v => if jsTruthy v then some v else b
  | none => b

/-- Fractional decimal digits of a nonnegative rational below 1; fuel
bounds the printed precision (exact whenever the expansion terminates
within it, which covers the dyadic fractions arising here). -/
def fracDigits : Nat → ℚ → List Char
  | 0, _ => []
  | fuel + 1, q =>
    if q = 0 then []
    else
      let q10 := q * 10
      digitChar (Int.toNat ⌊q10⌋) :: fracDigits fuel (q10 - ⌊q10⌋)

/-- Decimal rendering of a rational, approximating Number toString
(exact on integers, which is the only case the validators rely on). -/
def ratToChars (q : ℚ) : JsStr :=
  let sign : JsStr := if q < 0 then ['-'] else []
  let a : ℚ := if q < 0 then -q else q
  let ip := Int.toNat ⌊a⌋
  let fp := a - ⌊a⌋
  sign ++ natToChars ip ++ (if fp = 0 then [] else '.' :: fracDigits 12 fp)

/-- Joined rendering of array elements, comma separated (String of an
array), rendering each element with the supplied printer. -/
def joinWithCommas (f : JsVal → JsStr) : List JsVal → JsStr
  | [] => []
  | [x] => f x
  | x :: y :: rest => f x ++ [','] ++ joinWithCommas f (y :: rest)

/-- String(v) for a defined value; fuel bounds array nesting depth. -/
def jsToStringF : Nat → JsVal → JsStr
  | _, .str s => s
  | _, .num q => ratToChars q
  | _, .bool b => if b then "true".data else "false".data
  | _, .null => "null".data
  | _, .obj _ => "[object Object]".data
  | 0, .arr _ => []
  | fuel + 1, .arr xs => joinWithCommas (jsToStringF fuel) xs

/-- String(v) at a nesting depth ample for any manifest handled here. -/
def jsToString (v : JsVal) : JsStr := jsToStringF 64 v

/-- valStr from trialGenerator.ts: empty string on null or undefined,
String(v) otherwise. -/
def valStrO : Option JsVal → JsStr
  | none => []
  | some .null => []
  | some v => jsToString v

/-- lowerStr from trialGenerator.ts. -/
def lowerStr (v : Option JsVal) : JsStr := jsToLower (valStrO v)

/-- Property access on a dynamic property bag. -/
def propGet (props : List (JsStr × JsVal)) (k : JsStr) : Option JsVal :=
  lookupFirstBy props k

/-- Numeric value of digits, for the Number coercion of digit strings. -/
def digitsToNat (s : JsStr) : Nat :=
  s.foldl (fun acc c => acc * 10 + (c.toNat - 48)) 0

/-- Number(v): none models NaN. Strings are handled on the natural-number
fragment (others coerce to NaN here); the coerced values feeding this are
discarded by the validator, so only definedness matters downstream. -/
def jsToNumberOpt : JsVal → Option ℚ
  | .num q => some q
  | .bool b => some (if b then 1 else 0)
  | .null => some 0
  | .str s =>
    let t := jsTrim s
    if t = [] then some 0
    else if t.all Char.isDigit then some (digitsToNat t : ℚ)
    else none
  | .arr _ => none
  | .obj _ => none

/-- Number(field) || 0 on a possibly-absent field: NaN and falsy collapse
to zero exactly as in the validator. -/
def jsNumberField (o : Option JsVal) : ℚ :=
  match o with
  | none => 0
  | some v => (jsToNumberOpt v).getD 0

/-- The availability record passed to computeCounts, in the field order
of the source object literal. -/
structure Avail where
  familiarNonPartner : Nat
  unfamiliar : Nat
  partner : Nat
deriving DecidableEq, Repr

/-- A TrialGenerationWarning. -/
structure TrialGenWarning where
  message : JsStr
deriving DecidableEq, Repr

/-- The record returned by computeCounts. -/
structure CountsResult where
  nPartner : Int
  nFamiliarNonPartner : Int
  nUnfamiliar : Int
  warnings : List TrialGenWarning
deriving DecidableEq, Repr

/-- Math.round: floor of the argument plus one half, computed on the
numerator and denominator so that the kernel can evaluate it (the
rational operations of the ambient library are irreducible); the
jsRound_eq_floor bridge below identifies it with the floor form. -/
def jsRound (q : ℚ) : Int := (2 * q.num + (q.den : Int)) / (2 * (q.den : Int))

/-- Product of an integer and a rational, in kernel-evaluable form;
intMulQ_eq below identifies it with the cast product. -/
def intMulQ (x : Int) (f : ℚ) : ℚ := mkRat (x * f.num) f.den

def noPartnerMsg : JsStr :=
  "No partner available with media; partner-call trials set to 0.".data

def noFamNPMsg : JsStr :=
  "No familiar non-partner identities available; reassigning familiar trials to partner where possible.".data

def noUnfamMsg : JsStr :=
  "No unfamiliar identities available; all trials will be familiar.".data

/-- computeCounts from trialGenerator.ts. Successive rebindings of the
mutated locals are written as numbered stages. -/
def computeCounts (total : Int) (ff pf : ℚ) (available : Avail) : CountsResult :=
  let nFamiliar : Int := jsRound (intMulQ total ff)
  let nUnfamiliar0 : Int := total - nFamiliar
  let nPartner0 : Int := jsRound (intMulQ nFamiliar pf)
  let nFamiliarNonPartner0 : Int := nFamiliar - nPartner0
  let w1 := if available.partner ≤ 0 then [TrialGenWarning.mk noPartnerMsg] else []
  let nFamiliarNonPartner1 := if available.partner ≤ 0 then nFamiliarNonPartner0 + nPartner0 else nFamiliarNonPartner0
  let nPartner1 : Int := if available.partner ≤ 0 then 0 else nPartner0
  let w2 := if available.familiarNonPartner ≤ 0 then [TrialGenWarning.mk noFamNPMsg] else []
  let nPartner2 := if available.familiarNonPartner ≤ 0 then nPartner1 + nFamiliarNonPartner1 else nPartner1
  let nFamiliarNonPartner2 : Int := if available.familiarNonPartner ≤ 0 then 0 else nFamiliarNonPartner1
  let w3 := if available.unfamiliar ≤ 0 then [TrialGenWarning.mk noUnfamMsg] else []
  let nFamiliarNonPartner3 := if available.unfamiliar ≤ 0 then nFamiliarNonPartner2 + nUnfamiliar0 else nFamiliarNonPartner2
  let nUnfamiliar1 : Int := if available.unfamiliar ≤ 0 then 0 else nUnfamiliar0
  let nPartner3 := if nPartner2 > 0 ∧ available.partner ≤ 0 then 0 else nPartner2
  let nFamiliarNonPartner4 := if nFamiliarNonPartner3 > 0 ∧ available.familiarNonPartner ≤ 0 then 0 else nFamiliarNonPartner3
  let nUnfamiliar2 := if nUnfamiliar1 > 0 ∧ available.unfamiliar ≤ 0 then 0 else nUnfamiliar1
  { nPartner := nPartner3
    nFamiliarNonPartner := nFamiliarNonPartner4
    nUnfamiliar := nUnfamiliar2
    warnings := w1 ++ w2 ++ w3 }

/-- An exemplar record of the manifest. Indices are modelled as integers
(every manifest index is an integral JSON number). -/
structure Exemplar where
  index : Int
  relativePath : JsStr
  fileName : JsStr
deriving DecidableEq, Repr

/-- An identity entry of the prepared DatasetManifest (types.ts). -/
structure IdentityDatasetEntry where
  id : JsStr
  properties : List (JsStr × JsVal)
  nImageExemplars : Int
  nAudioExemplars : Int
  hasEnoughImages : Bool
  hasEnoughAudios : Bool
  expectedMinImages : Int
  expectedMinAudios : Int
  imageExemplars : List Exemplar
  audioExemplars : List Exemplar

/-- The meta block of a DatasetManifest. -/
structure ManifestMeta where
  dataDirLabel : JsStr
  expected_n_images : Int
  expected_n_audios : Int

/-- The prepared DatasetManifest. -/
structure DatasetManifest where
  meta : ManifestMeta
  identities : List IdentityDatasetEntry

/-- The Side union type of trialTypes.ts. -/
inductive Side : Type where
  | left
  | right
deriving DecidableEq, Repr

/-- The call-category union type of trialTypes.ts. -/
inductive Category : Type where
  | familiar
  | unfamiliar
deriving DecidableEq, Repr

/-- TrialConfig from trialTypes.ts; the fractional fields are rationals. -/
structure TrialConfig where
  totalTrials : Int
  familiarFraction : ℚ
  partnerFractionWithinFamiliar : ℚ
  balanceSides : Bool
  avoidRepeatPairings : Bool
  seed : JsStr
deriving DecidableEq, Repr

/-- TrialStimulus from trialTypes.ts. -/
structure TrialStimulus where
  identityId : JsStr
  exemplarIndex : Int
  path : JsStr
deriving DecidableEq, Repr

/-- Trial from trialTypes.ts. -/
structure Trial where
  trialId : JsStr
  trialNumber : Nat
  subjectId : JsStr
  partnerId : JsStr
  callIdentityId : JsStr
  callCategory : Category
  isPartnerCall : Bool
  otherIdentityId : JsStr
  otherCategory : Category
  partnerSide : Side
  correctSide : Side
  audio : TrialStimulus
  leftImage : TrialStimulus
  rightImage : TrialStimulus
  seed : JsStr
deriving DecidableEq, Repr

/-- TrialSetMeta from trialTypes.ts. -/
structure TrialSetMeta where
  subjectId : JsStr
  partnerId : JsStr
  totalTrials : Nat
  seed : JsStr
  dataDirLabel : JsStr
  generatedAt : JsStr
  config : TrialConfig
  warnings : List TrialGenWarning
deriving DecidableEq, Repr

/-- TrialSet from trialTypes.ts. -/
structure TrialSet where
  meta : TrialSetMeta
  trials : List Trial
deriving DecidableEq, Repr

/-- Math.floor(x * n) where x is a next() output with numerator o: exact
because o * n stays well below 2 ^ 53 for the sequence lengths here. -/
def floorMul (o n : Nat) : Nat := o * n / U32

/-- Swap of two in-range positions of an array (the destructuring swap
of the Fisher-Yates body); out-of-range indices leave the list alone,
a case the shuffle never exercises. -/
def listSwap {α : Type} (l : List α) (i j : Nat) : List α :=
  match l[i]?, l[j]? with
  | some a, some b => (l.set i b).set j a
  | _, _ => l

/-- The Fisher-Yates loop of shuffleInPlace, iterating the index from
high to low; the Nat argument is the current index (loop stops at 0). -/
def shuffleAux {α : Type} : List α → Nat → Nat → List α × Nat
  | arr, rng, 0 => (arr, rng)
  | arr, rng, i + 1 =>
    let (rng1, o) := mbNext rng
    let j := floorMul o (i + 2)
    shuffleAux (listSwap arr (i + 1) j) rng1 i

/-- shuffleInPlace from rng.ts, state-passing form. -/
def shuffleInPlace {α : Type} (arr : List α) (rng : Nat) : List α × Nat :=
  shuffleAux arr rng (arr.length - 1)

/-- pickOne from rng.ts: the element at floor(next() * length), with none
modelling the undefined read of an out-of-range index; the advanced rng
state is returned alongside. -/
def jsPickOne {α : Type} (arr : List α) (rng : Nat) : Option α × Nat :=
  let (t1, o) := mbNext rng
  (arr[floorMul o arr.length]?, t1)

/-- Mutable state of an ExemplarPairManager. The used set is modelled as
a list of (audio index, image index) pairs: the source keys the set by
the template string of the two integer indices, which is injective on
integer pairs. -/
structure PairMgr where
  audioOrder : List Int
  imageOrder : List Int
  aPtr : Nat
  iPtr : Nat
  used : List (Int × Int)
  audioIdxToPath : List (Int × JsStr)
  imageIdxToPath : List (Int × JsStr)
  avoidRepeat : Bool
deriving DecidableEq, Repr

/-- The (index, relativePath) projection fed to the pair manager. -/
def exPairs (l : List Exemplar) : List (Int × JsStr) :=
  l.map (fun e => (e.index, e.relativePath))

/-- The ExemplarPairManager constructor: shuffle the audio order, then
the image order, with the shared rng. -/
def mkPairMgr (images audios : List (Int × JsStr)) (rng : Nat) (avoidRepeat : Bool) :
    PairMgr × Nat :=
  let (audioOrder, rng1) := shuffleInPlace (audios.map (·.1)) rng
  let (imageOrder, rng2) := shuffleInPlace (images.map (·.1)) rng1
  ({ audioOrder := audioOrder, imageOrder := imageOrder, aPtr := 0, iPtr := 0, used := [],
     audioIdxToPath := audios, imageIdxToPath := images, avoidRepeat := avoidRepeat }, rng2)

/-- The avoid-repeat scan of nextPair: advance the image cursor while the
candidate pair is in the used set and tries remain; fuel is the image
count, mirroring the tries bound of the while loop. Returns the final
cursor and tries counter. -/
def seekAux (used : List (Int × Int)) (aIdx : Int) (imgOrder : List Int) :
    Nat → Nat → Nat → Nat × Nat
  | iPtr, tries, 0 => (iPtr, tries)
  | iPtr, tries, fuel + 1 =>
    let cand := imgOrder.getD (iPtr % imgOrder.length) 0
    if (aIdx, cand) ∈ used then seekAux used aIdx imgOrder (iPtr + 1) (tries + 1) fuel
    else (iPtr, tries)

/-- Set.add on the used set. -/
def insertUsed (used : List (Int × Int)) (k : Int × Int) : List (Int × Int) :=
  if k ∈ used then used else used ++ [k]

/-- The record nextPair returns. -/
structure PairResult where
  audioIndex : Int
  audioPath : JsStr
  imageIndex : Int
  imagePath : JsStr
deriving DecidableEq, Repr

def noPairMsg : JsStr := "No available exemplars for pairing.".data

def noImagesMsg : JsStr := "No available image exemplars.".data

/-- nextPair of ExemplarPairManager. -/
def nextPair (m : PairMgr) : Except JsStr (PairResult × PairMgr) :=
  if m.audioOrder.length = 0 ∨ m.imageOrder.length = 0 then .error noPairMsg
  else
    let len := m.imageOrder.length
    let aIdx := m.audioOrder.getD (m.aPtr % m.audioOrder.length) 0
    let scan := if m.avoidRepeat then seekAux m.used aIdx m.imageOrder m.iPtr 0 len
                else (m.iPtr, 0)
    let used1 := if m.avoidRepeat ∧ len ≤ scan.2 then [] else m.used
    let imgIdx := m.imageOrder.getD (scan.1 % len) 0
    let audioPath := (lookupLastBy m.audioIdxToPath aIdx).getD []
    let imagePath := (lookupLastBy m.imageIdxToPath imgIdx).getD []
    .ok ({ audioIndex := aIdx, audioPath := audioPath, imageIndex := imgIdx, imagePath := imagePath },
      { m with aPtr := m.aPtr + 1, iPtr := scan.1 + 1, used := insertUsed used1 (aIdx, imgIdx) })

/-- nextImageOnly of ExemplarPairManager. -/
def nextImageOnly (m : PairMgr) : Except JsStr ((Int × JsStr) × PairMgr) :=
  if m.imageOrder.length = 0 then .error noImagesMsg
  else
    let imgIdx := m.imageOrder.getD (m.iPtr % m.imageOrder.length) 0
    let imagePath := (lookupLastBy m.imageIdxToPath imgIdx).getD []
    .ok ((imgIdx, imagePath), { m with iPtr := m.iPtr + 1 })

/-- identityById from trialGenerator.ts. -/
def identityById (m : DatasetManifest) (id : JsStr) : Option IdentityDatasetEntry :=
  m.identities.find? (fun e => decide (e.id = id))

/-- The record buildPools returns. -/
structure Pools where
  subject : IdentityDatasetEntry
  partner : IdentityDatasetEntry
  partnerSex : JsStr
  familiar : List IdentityDatasetEntry
  unfamiliar : List IdentityDatasetEntry

def sexKey : JsStr := "sex".data

def famKey : JsStr := "familiarity".data

/-- The classification pass of buildPools over all identities: skip the
subject, skip sexes differing from the partner's, then split on the
familiarity property. -/
def classifyPools (identities : List IdentityDatasetEntry) (subjectId partnerSex : JsStr) :
    List IdentityDatasetEntry × List IdentityDatasetEntry :=
  match identities with
  | [] => ([], [])
  | e :: rest =>
    let (f, u) := classifyPools rest subjectId partnerSex
    if e.id = subjectId then (f, u)
    else if lowerStr (propGet e.properties sexKey) ≠ partnerSex then (f, u)
    else if lowerStr (propGet e.properties famKey) = "familiar".data then (e :: f, u)
    else if lowerStr (propGet e.properties famKey) = "unfamiliar".data then (f, e :: u)
    else (f, u)

/-- buildPools from trialGenerator.ts. -/
def buildPools (manifest : DatasetManifest) (subjectId : JsStr) : Except JsStr Pools := do
  let some subj := identityById manifest subjectId
    | throw ("Subject ID not found: ".data ++ subjectId)
  let partnerId := jsTrim (valStrO (jsOrO (jsOrO (propGet subj.properties "partner_ID".data)
      (propGet subj.properties "partnerId".data)) (propGet subj.properties "partner".data)))
  if partnerId = [] then
    throw "Selected subject has no partner_ID in the prepared manifest.".data
  let some partner := identityById manifest partnerId
    | throw ("Partner \"".data ++ partnerId ++ "\" not found in prepared manifest.".data)
  let partnerSex := lowerStr (propGet partner.properties sexKey)
  if partnerSex = [] then
    throw "Partner has no sex property.".data
  let (fam, unfam) := classifyPools manifest.identities subjectId partnerSex
  pure { subject := subj, partner := partner, partnerSex := partnerSex,
         familiar := fam, unfamiliar := unfam }

/-- buildSessionId from trialGenerator.ts. -/
def buildSessionId (subjectId seed : JsStr) : JsStr :=
  (natToBase36 (hashStringToInt (utf16Units (subjectId ++ "::".data ++ seed)))).take 6

/-- A scheduled call: the picked identity id (none models the undefined
result of a pick from an empty pool) and its category tag. -/
abbrev Cell := Option JsStr × Category

/-- The per-generation context threaded through the trial loop. -/
structure GenCtx where
  manifest : DatasetManifest
  config : TrialConfig
  partner : IdentityDatasetEntry
  subjId : JsStr
  sessionId : JsStr
  famWithMedia : List IdentityDatasetEntry
  unfamWithMedia : List IdentityDatasetEntry
  familiarPool : List IdentityDatasetEntry
  partnerOnLeftCount : Int

/-- The mutable state of the trial loop. -/
structure GenState where
  rng : Nat
  partnerMgr : PairMgr
  callMgrs : List (JsStr × PairMgr)
  imageMgrs : List (JsStr × PairMgr)
  assignedLeft : Int

/-- getMgrForCall: reuse the cached manager, else construct one from the
identity's media with the configured repeat avoidance. -/
def getCallMgr (cfg : TrialConfig) (cache : List (JsStr × PairMgr))
    (ident : IdentityDatasetEntry) (rng : Nat) : PairMgr × List (JsStr × PairMgr) × Nat :=
  match lookupFirstBy cache ident.id with
  | some m => (m, cache, rng)
  | none =>
    let (m, rng1) := mkPairMgr (exPairs ident.imageExemplars) (exPairs ident.audioExemplars)
      rng cfg.avoidRepeatPairings
    (m, cache ++ [(ident.id, m)], rng1)

/-- getMgrForImagesOnly: reuse the cached manager, else construct one with
a placeholder audio list when the identity has no audio, and repeat
avoidance off. -/
def getImageMgr (cache : List (JsStr × PairMgr)) (ident : IdentityDatasetEntry) (rng : Nat) :
    PairMgr × List (JsStr × PairMgr) × Nat :=
  match lookupFirstBy cache ident.id with
  | some m => (m, cache, rng)
  | none =>
    let audios := if ident.audioExemplars.length ≠ 0 then exPairs ident.audioExemplars
                  else [(1, [])]
    let (m, rng1) := mkPairMgr (exPairs ident.imageExemplars) audios rng false
    (m, cache ++ [(ident.id, m)], rng1)

def otherPoolMsg : JsStr := "No suitable \"other\" identities available.".data

def callNotFoundMsg : JsStr := "Call identity not found during generation.".data

/-- Selection of the "other" identity: for a partner call, a uniform pick
from the media-bearing pools minus the partner (fatal when that pool is
empty; a pick from a non-empty pool is always defined, so the undefined
branch is unreachable); otherwise the calling identity itself. -/
def chooseOther (ctx : GenCtx) (isPartnerCall : Bool) (callIdentity : IdentityDatasetEntry)
    (rng : Nat) : Except JsStr (IdentityDatasetEntry × Nat) :=
  if isPartnerCall then
    let otherPool := (ctx.famWithMedia ++ ctx.unfamWithMedia).filter
      (fun e => decide (e.id ≠ ctx.partner.id))
    if otherPool.length = 0 then .error otherPoolMsg
    else
      match jsPickOne otherPool rng with
      | (some e, rng1) => .ok (e, rng1)
      | (none, _) => .error otherPoolMsg
  else .ok (callIdentity, rng)

/-- The partnerSide decision: the running left-assignment counter under
balanceSides, otherwise one rng draw compared against one half. -/
def decideSide (cfg : TrialConfig) (assignedLeft partnerOnLeftCount : Int) (rng : Nat) :
    Side × Nat :=
  if cfg.balanceSides then
    (if assignedLeft < partnerOnLeftCount then Side.left else Side.right, rng)
  else
    let (rng1, o) := mbNext rng
    (if o < 2147483648 then Side.left else Side.right, rng1)

/-- One iteration of the trial loop of generateTrials. -/
def genStep (ctx : GenCtx) (cell : Cell) (idx : Nat) (st : GenState) :
    Except JsStr (Trial × GenState) := do
  let isPartnerCall := decide (cell.1 = some ctx.partner.id)
  let some callIdentity := (if isPartnerCall then some ctx.partner else
      match cell.1 with
      | some cid => identityById ctx.manifest cid
      | none => none)
    | throw callNotFoundMsg
  let (callMgr0, callMgrs0, rng0) := getCallMgr ctx.config st.callMgrs callIdentity st.rng
  let (pr, callMgr1) ← nextPair callMgr0
  let callMgrs1 := setAssoc callMgrs0 callIdentity.id callMgr1
  let (otherIdentity, rng1) ← chooseOther ctx isPartnerCall callIdentity rng0
  let otherCategory := if ctx.familiarPool.any (fun e => decide (e.id = otherIdentity.id))
      then Category.familiar else Category.unfamiliar
  let (partnerSide, rng2) := decideSide ctx.config st.assignedLeft ctx.partnerOnLeftCount rng1
  let assigned1 := if ctx.config.balanceSides && decide (partnerSide = Side.left)
      then st.assignedLeft + 1 else st.assignedLeft
  let (pimg, partnerMgr1) ← nextImageOnly st.partnerMgr
  let (omgr0, imageMgrs0, rng3) := getImageMgr st.imageMgrs otherIdentity rng2
  let (oimg, omgr1) ← nextImageOnly omgr0
  let imageMgrs1 := setAssoc imageMgrs0 otherIdentity.id omgr1
  let leftImage : TrialStimulus := if partnerSide = Side.left
    then { identityId := ctx.partner.id, exemplarIndex := pimg.1, path := pimg.2 }
    else { identityId := otherIdentity.id, exemplarIndex := oimg.1, path := oimg.2 }
  let rightImage : TrialStimulus := if partnerSide = Side.left
    then { identityId := otherIdentity.id, exemplarIndex := oimg.1, path := oimg.2 }
    else { identityId := ctx.partner.id, exemplarIndex := pimg.1, path := pimg.2 }
  let correctSide := if isPartnerCall then partnerSide
    else if leftImage.identityId = callIdentity.id then Side.left else Side.right
  let audioStim : TrialStimulus :=
    { identityId := callIdentity.id, exemplarIndex := pr.audioIndex, path := pr.audioPath }
  let trial : Trial := {
    trialId := ctx.subjId ++ ['-'] ++ ctx.sessionId ++ ['-'] ++ natToChars (idx + 1)
    trialNumber := idx + 1
    subjectId := ctx.subjId
    partnerId := ctx.partner.id
    callIdentityId := callIdentity.id
    callCategory := cell.2
    isPartnerCall := isPartnerCall
    otherIdentityId := otherIdentity.id
    otherCategory := otherCategory
    partnerSide := partnerSide
    correctSide := correctSide
    audio := audioStim
    leftImage := leftImage
    rightImage := rightImage
    seed := ctx.config.seed }
  pure (trial, { rng := rng3, partnerMgr := partnerMgr1, callMgrs := callMgrs1,
                 imageMgrs := imageMgrs1, assignedLeft := assigned1 })

/-- The trial loop of generateTrials over the shuffled schedule. -/
def genLoop (ctx : GenCtx) : List Cell → Nat → GenState → Except JsStr (List Trial)
  | [], _, _ => .ok []
  | cell :: rest, idx, st => do
    let (trial, st1) ← genStep ctx cell idx st
    let trials ← genLoop ctx rest (idx + 1) st1
    pure (trial :: trials)

/-- n successive pickOne draws from a pool of ids. -/
def pickMany (pool : List JsStr) : Nat → Nat → List (Option JsStr) × Nat
  | 0, rng => ([], rng)
  | k + 1, rng =>
    let (x, rng1) := jsPickOne pool rng
    let (rest, rng2) := pickMany pool k rng1
    (x :: rest, rng2)

def noPartnerImagesMsg : JsStr := "Partner has no image exemplars.".data

def noPartnerAudiosMsg : JsStr := "Partner has no audio exemplars.".data

/-- generateTrials from trialGenerator.ts, up to the construction of the
meta record: trials, warnings, and the subject and partner ids. The
wall-clock timestamp does not enter here. -/
def generateTrialsCore (manifest : DatasetManifest) (subjectId : JsStr) (config : TrialConfig) :
    Except JsStr (List Trial × List TrialGenWarning × JsStr × JsStr) := do
  let rng0 := hashStringToInt (utf16Units config.seed)
  let pools ← buildPools manifest subjectId
  if pools.partner.imageExemplars.length = 0 then throw noPartnerImagesMsg
  if pools.partner.audioExemplars.length = 0 then throw noPartnerAudiosMsg
  let familiarNonPartner := pools.familiar.filter (fun e => decide (e.id ≠ pools.partner.id))
  let famWithMedia := familiarNonPartner.filter
    (fun e => decide (0 < e.imageExemplars.length ∧ 0 < e.audioExemplars.length))
  let unfamWithMedia := pools.unfamiliar.filter
    (fun e => decide (0 < e.imageExemplars.length ∧ 0 < e.audioExemplars.length))
  let partnerHasMedia : Nat :=
    if 0 < pools.partner.imageExemplars.length ∧ 0 < pools.partner.audioExemplars.length
    then 1 else 0
  let counts := computeCounts config.totalTrials config.familiarFraction
    config.partnerFractionWithinFamiliar
    { familiarNonPartner := famWithMedia.length, unfamiliar := unfamWithMedia.length,
      partner := partnerHasMedia }
  let warnings := counts.warnings
  let sessionId := buildSessionId pools.subject.id config.seed
  let (partnerMgr0, rng1) := mkPairMgr (exPairs pools.partner.imageExemplars)
    (exPairs pools.partner.audioExemplars) rng0 config.avoidRepeatPairings
  let famNpIdsPool := famWithMedia.map (fun e => e.id)
  let (famPicked, rng2) := pickMany famNpIdsPool counts.nFamiliarNonPartner.toNat rng1
  let familiarCallIds := List.replicate counts.nPartner.toNat (some pools.partner.id) ++ famPicked
  let unfamIdsPool := unfamWithMedia.map (fun e => e.id)
  let (unfamiliarCallIds, rng3) := pickMany unfamIdsPool counts.nUnfamiliar.toNat rng2
  let scheduled0 : List Cell := familiarCallIds.map (fun i => (i, Category.familiar)) ++
    unfamiliarCallIds.map (fun i => (i, Category.unfamiliar))
  let (scheduledCalls, rng4) := shuffleInPlace scheduled0 rng3
  let partnerOnLeftCount : Int :=
    if config.balanceSides then (scheduledCalls.length : Int) / 2 else -1
  let ctx : GenCtx :=
    { manifest := manifest
      config := config
      partner := pools.partner
      subjId := pools.subject.id
      sessionId := sessionId
      famWithMedia := famWithMedia
      unfamWithMedia := unfamWithMedia
      familiarPool := pools.familiar
      partnerOnLeftCount := partnerOnLeftCount }
  let st0 : GenState :=
    { rng := rng4
      partnerMgr := partnerMgr0
      callMgrs := []
      imageMgrs := []
      assignedLeft := 0 }
  let trials ← genLoop ctx scheduledCalls 0 st0
  pure (trials, warnings, pools.subject.id, pools.partner.id)

/-- generateTrials from trialGenerator.ts. The now argument stands for
the wall-clock reading new Date().toISOString() taken when the meta
record is built; it is the one input outside the function's parameters. -/
def generateTrials (manifest : DatasetManifest) (subjectId : JsStr) (config : TrialConfig)
    (now : JsStr) : Except JsStr TrialSet :=
  match generateTrialsCore manifest subjectId config with
  | .error e => .error e
  | .ok (trials, warnings, subjId, partnerId) =>
    .ok {
      meta := {
        subjectId := subjId
        partnerId := partnerId
        totalTrials := trials.length
        seed := config.seed
        dataDirLabel := if manifest.meta.dataDirLabel = [] then "dataset".data
                        else manifest.meta.dataDirLabel
        generatedAt := now
        config := config
        warnings := warnings }
      trials := trials }

/-- Project the success value of an Except, with a default for errors. -/
def getOk {ε α : Type} (e : Except ε α) (d : α) : α :=
  match e with
  | .ok a => a
  | .error _ => d

/-- Concrete fixture: subject A, partnered with B. -/
def entryA : IdentityDatasetEntry :=
  { id := "A".data
    properties := [("partner_ID".data, JsVal.str "B".data), (sexKey, JsVal.str "f".data),
      (famKey, JsVal.str "familiar".data)]
    nImageExemplars := 0
    nAudioExemplars := 0
    hasEnoughImages := true
    hasEnoughAudios := true
    expectedMinImages := 1
    expectedMinAudios := 1
    imageExemplars := []
    audioExemplars := [] }

/-- Concrete fixture: partner B, female, familiar, two images and two
audio exemplars. -/
def entryB : IdentityDatasetEntry :=
  { id := "B".data
    properties := [(sexKey, JsVal.str "f".data), (famKey, JsVal.str "familiar".data)]
    nImageExemplars := 2
    nAudioExemplars := 2
    hasEnoughImages := true
    hasEnoughAudios := true
    expectedMinImages := 1
    expectedMinAudios := 1
    imageExemplars := [⟨1, "media/images/B1.jpg".data, "B1.jpg".data⟩,
      ⟨2, "media/images/B2.jpg".data, "B2.jpg".data⟩]
    audioExemplars := [⟨1, "media/audio/B1.wav".data, "B1.wav".data⟩,
      ⟨2, "media/audio/B2.wav".data, "B2.wav".data⟩] }

/-- Concrete fixture: familiar non-partner C with media. -/
def entryC : IdentityDatasetEntry :=
  { id := "C".data
    properties := [(sexKey, JsVal.str "f".data), (famKey, JsVal.str "familiar".data)]
    nImageExemplars := 2
    nAudioExemplars := 2
    hasEnoughImages := true
    hasEnoughAudios := true
    expectedMinImages := 1
    expectedMinAudios := 1
    imageExemplars := [⟨1, "media/images/C1.jpg".data, "C1.jpg".data⟩,
      ⟨2, "media/images/C2.jpg".data, "C2.jpg".data⟩]
    audioExemplars := [⟨1, "media/audio/C1.wav".data, "C1.wav".data⟩,
      ⟨2, "media/audio/C2.wav".data, "C2.wav".data⟩] }

/-- Concrete fixture: unfamiliar D with media. -/
def entryD : IdentityDatasetEntry :=
  { id := "D".data
    properties := [(sexKey, JsVal.str "f".data), (famKey, JsVal.str "unfamiliar".data)]
    nImageExemplars := 2
    nAudioExemplars := 2
    hasEnoughImages := true
    hasEnoughAudios := true
    expectedMinImages := 1
    expectedMinAudios := 1
    imageExemplars := [⟨1, "media/images/D1.jpg".data, "D1.jpg".data⟩,
      ⟨2, "media/images/D2.jpg".data, "D2.jpg".data⟩]
    audioExemplars := [⟨1, "media/audio/D1.wav".data, "D1.wav".data⟩,
      ⟨2, "media/audio/D2.wav".data, "D2.wav".data⟩] }

/-- Concrete fixture manifest with subject A, partner B, familiar C,
unfamiliar D. -/
def manifest0 : DatasetManifest :=
  { meta := { dataDirLabel := "ds".data, expected_n_images := 2, expected_n_audios := 2 }
    identities := [entryA, entryB, entryC, entryD] }

/-- B stripped of image exemplars, for the media-precondition claims. -/
def entryBNoImages : IdentityDatasetEntry :=
  { entryB with imageExemplars := [], nImageExemplars := 0 }

/-- manifest0 with the partner lacking images. -/
def manifest1 : DatasetManifest :=
  { meta := manifest0.meta
    identities := [entryA, entryBNoImages, entryC, entryD] }

/-- Concrete fixture configuration: six balanced trials, seed s1. -/
def config0 : TrialConfig :=
  { totalTrials := 6
    familiarFraction := mkRat 1 2
    partnerFractionWithinFamiliar := mkRat 1 2
    balanceSides := true
    avoidRepeatPairings := true
    seed := "s1".data }

/-- A first wall-clock reading. -/
def now1 : JsStr := "2024-01-01T00:00:00.000Z".data

/-- A second, different wall-clock reading. -/
def now2 : JsStr := "2024-01-02T00:00:00.000Z".data

/-- A default TrialSet for error projection. -/
def dfltTrialSet : TrialSet :=
  { meta :=
      { subjectId := []
        partnerId := []
        totalTrials := 0
        seed := []
        dataDirLabel := []
        generatedAt := []
        config :=
          { totalTrials := 0
            familiarFraction := mkRat 0 1
            partnerFractionWithinFamiliar := mkRat 0 1
            balanceSides := false
            avoidRepeatPairings := false
            seed := [] }
        warnings := [] }
    trials := [] }

/-- The concrete generation run on the fixture. -/
def trialSet0 : TrialSet := getOk (generateTrials manifest0 "A".data config0 now1) dfltTrialSet

/-- The same run under the second wall-clock reading. -/
def trialSet0b : TrialSet := getOk (generateTrials manifest0 "A".data config0 now2) dfltTrialSet

/-- A default Pools value for error projection. -/
def dfltPools : Pools :=
  { subject := entryA, partner := entryA, partnerSex := [], familiar := [], unfamiliar := [] }

/-- The pools of manifest1, whose partner lacks image exemplars. -/
def pools1 : Pools := getOk (buildPools manifest1 "A".data) dfltPools

/-- The segment loop of assertSafeInternalPath: reject empty, dot and
dot-dot segments. -/
def checkSegments (orig : JsStr) : List JsStr → Except JsStr Unit
  | [] => .ok ()
  | seg :: rest =>
    if seg = [] then .error ("Invalid path segment in \"".data ++ orig ++ "\".".data)
    else if seg = ['.'] ∨ seg = ['.', '.'] then
      .error ("Path traversal is not allowed: \"".data ++ orig ++ "\"".data)
    else checkSegments orig rest

/-- assertSafeInternalPath from bundleValidation: reject the empty path,
absolute paths, backslashes, and empty or traversal segments. -/
def assertSafeInternalPath (p : JsStr) : Except JsStr Unit :=
  if p = [] then .error "Empty path is not allowed.".data
  else if p.head? = some '/' ∨ p.head? = some '\\' then
    .error ("Absolute paths are not allowed: \"".data ++ p ++ "\"".data)
  else if '\\' ∈ p then
    .error ("Backslashes are not allowed in bundle paths: \"".data ++ p ++ "\"".data)
  else checkSegments p (jsSplit '/' p)

/-- Whether an Except carries a success (the call returned rather than
threw). -/
def isOkB {ε α : Type} : Except ε α → Bool
  | .ok _ => true
  | .error _ => false

/-- The BundleSeedPolicy union of bundleTypes, as a tagged union. -/
inductive BundleSeedPolicy : Type where
  | global (globalSeed : JsStr) (perSubjectOverrides : List (JsStr × JsStr))
  | perSubject (perSubjectSeeds : List (JsStr × JsStr))

/-- The missing-per-subject-seed message, naming the subject. -/
def missingSeedMsg (subjectId : JsStr) : JsStr :=
  "Missing per-subject seed for \"".data ++ subjectId ++ "\".".data

def globalSeedRequiredMsg : JsStr := "Global seed is required.".data

/-- The global-policy fallback of deriveSubjectSeed: require a non-blank
global seed and derive globalSeed::subjectId. -/
def globalFallback (g subjectId : JsStr) : Except JsStr JsStr :=
  if g = [] ∨ (jsTrim g).length = 0 then .error globalSeedRequiredMsg
  else .ok (g ++ "::".data ++ subjectId)

/-- deriveSubjectSeed from bundleBuilder.ts. -/
def deriveSubjectSeed : BundleSeedPolicy → JsStr → Except JsStr JsStr
  | .perSubject seeds, subjectId =>
    (match lookupFirstBy seeds subjectId with
     | some s => if s = [] then .error (missingSeedMsg subjectId) else .ok s
     | none => .error (missingSeedMsg subjectId))
  | .global g overrides, subjectId =>
    (match lookupFirstBy overrides subjectId with
     | some o =>
       if o ≠ [] ∧ 0 < (jsTrim o).length then .ok (jsTrim o)
       else globalFallback g subjectId
     | none => globalFallback g subjectId)

/-- The overrides record of the C7 counterexample: a padded override. -/
def polC7 : BundleSeedPolicy := .global "g".data [("A".data, " x ".data)]

/-- isRecord from bundleValidation: a plain object (not array, not null). -/
def isRecord : JsVal → Bool
  | .obj _ => true
  | _ => false

/-- isRecord on a possibly-absent value. -/
def isRecordO : Option JsVal → Bool
  | some v => isRecord v
  | none => false

/-- String(x || ''): the string coercion of a field defaulted to the
empty string when absent or falsy. -/
def jsStringOrEmpty (o : Option JsVal) : JsStr :=
  match o with
  | some v => if jsTruthy v then jsToString v else []
  | none => []

/-- The coerced exemplar record validateManifestShape builds and then
discards (the source types it as Exemplar; the numeric index is kept as
the exact Number coercion here). -/
structure CoercedExemplar where
  index : ℚ
  relativePath : JsStr
  fileName : JsStr

/-- validateExemplar from validateManifestShape: shape-check one
exemplar, path-check its relativePath, and build the coerced record. -/
def validateExemplar (id kind : JsStr) (ex : JsVal) : Except JsStr CoercedExemplar :=
  match ex with
  | .obj fields =>
    let rp := jsStringOrEmpty (lookupFirstBy fields "relativePath".data)
    match assertSafeInternalPath rp with
    | .error e => .error e
    | .ok _ =>
      .ok { index := jsNumberField (lookupFirstBy fields "index".data)
            relativePath := rp
            fileName := jsStringOrEmpty (lookupFirstBy fields "fileName".data) }
  | _ =>
    .error ("manifest.json: identity \"".data ++ id ++ "\" has invalid ".data ++ kind ++
      " exemplar.".data)

/-- The forEach over one exemplar list: every element is validated, the
coerced results are collected (and dropped by the caller). -/
def validateExemplars (id kind : JsStr) : List JsVal → Except JsStr (List CoercedExemplar)
  | [] => .ok []
  | ex :: rest =>
    match validateExemplar id kind ex with
    | .error e => .error e
    | .ok c =>
      match validateExemplars id kind rest with
      | .error e => .error e
      | .ok cs => .ok (c :: cs)

/-- The identity loop of validateManifestShape. -/
def validateIdentities : List JsVal → Except JsStr Unit
  | [] => .ok ()
  | idEntry :: rest =>
    match idEntry with
    | .obj fs =>
      let id := jsTrim (jsStringOrEmpty (lookupFirstBy fs "id".data))
      if id = [] then .error "manifest.json: identity.id is required.".data
      else
        match lookupFirstBy fs "imageExemplars".data, lookupFirstBy fs "audioExemplars".data with
        | some (.arr imgs), some (.arr auds) =>
          match validateExemplars id "image".data imgs with
          | .error e => .error e
          | .ok _ =>
            match validateExemplars id "audio".data auds with
            | .error e => .error e
            | .ok _ => validateIdentities rest
        | _, _ =>
          .error ("manifest.json: identity \"".data ++ id ++ "\" exemplars must be arrays.".data)
    | _ => .error "manifest.json: invalid identity entry.".data

/-- validateManifestShape from bundleValidation: shape-check the parsed
JSON and return the very value that was passed in. -/
def validateManifestShape (manifest : JsVal) : Except JsStr JsVal :=
  match manifest with
  | .obj fields =>
    if isRecordO (lookupFirstBy fields "meta".data) = false then
      .error "manifest.json: meta must be an object.".data
    else
      match lookupFirstBy fields "identities".data with
      | some (.arr ids) =>
        match validateIdentities ids with
        | .error e => .error e
        | .ok _ => .ok manifest
      | _ => .error "manifest.json: identities must be an array.".data
  | _ => .error "manifest.json must be a JSON object.".data

/-- A concrete parsed manifest value for the C9 witness. -/
def manifestJson0 : JsVal :=
  .obj [("meta".data, .obj [("dataDirLabel".data, .str "ds".data)]),
    ("identities".data, .arr [
      .obj [("id".data, .str "A".data),
        ("imageExemplars".data, .arr [
          .obj [("index".data, .num 1),
            ("relativePath".data, .str "media/images/A1.jpg".data),
            ("fileName".data, .str "A1.jpg".data)]]),
        ("audioExemplars".data, .arr [])]])]

/-- The value validateManifestShape returns on the witness input. -/
def manifestJson0Out : JsVal := getOk (validateManifestShape manifestJson0) JsVal.null

/-- The image stimulus a trial shows on a given side. -/
def sideId (t : Trial) : Side → JsStr
  | .left => t.leftImage.identityId
  | .right => t.rightImage.identityId

/-- The per-trial correctness invariant, decidably: a partner call's
correct side is the partner side, and a non-partner call's correct side
holds the calling identity's image. -/
def trialInvariantB (t : Trial) : Bool :=
  (!t.isPartnerCall || decide (t.correctSide = t.partnerSide)) &&
    (t.isPartnerCall || decide (sideId t t.correctSide = t.callIdentityId))

theorem u32_pos : 0 < U32 := Nat.pos_pow_of_pos 32 (by omega)

theorem xor_mod_u32 (a b : Nat) : (a ^^^ b) % U32 = a % U32 ^^^ b % U32 := by
  apply Nat.eq_of_testBit_eq
  intro i
  simp only [U32, Nat.testBit_mod_two_pow, Nat.testBit_xor]
  cases h : decide (i < 32) <;> simp

theorem xor_lt_u32 {a b : Nat} (ha : a < U32) (hb : b < U32) : a ^^^ b < U32 :=
  Nat.xor_lt_two_pow ha hb

theorem shiftRight_le_self (a n : Nat) : a >>> n ≤ a := by
  rw [Nat.shiftRight_eq_div_pow]
  exact Nat.div_le_self _ _

theorem mbNext_out_eq_spec (t : Nat) : (mbNext t).2 = specNextOut t := by
  have hu : (0 : Nat) < U32 := u32_pos
  show (let t1 := (t + 0x6d2b79f5) % U32
        let r1 := imul (t1 ^^^ (t1 >>> 15)) (1 ||| t1)
        let r2 := r1 ^^^ ((r1 + imul (r1 ^^^ (r1 >>> 7)) (61 ||| r1)) % U32)
        r2 ^^^ (r2 >>> 14)) = specNextOut t
  unfold specNextOut specNextState imul
  set t1 := (t + 0x6d2b79f5) % U32 with ht1
  set r1 := (t1 ^^^ (t1 >>> 15)) * (1 ||| t1) % U32 with hr1
  have hr1lt : r1 < U32 := Nat.mod_lt _ hu
  set p := (r1 ^^^ (r1 >>> 7)) * (61 ||| r1) with hp
  have key : (r1 ^^^ (r1 + p)) % U32 = r1 ^^^ (r1 + p % U32) % U32 := by
    rw [xor_mod_u32, Nat.mod_eq_of_lt hr1lt, Nat.add_mod r1 p, Nat.mod_eq_of_lt hr1lt]
  simp only [key]
  set r2 := r1 ^^^ (r1 + p % U32) % U32 with hr2
  have hr2lt : r2 < U32 := xor_lt_u32 hr1lt (Nat.mod_lt _ hu)
  have hout : r2 ^^^ (r2 >>> 14) < U32 :=
    xor_lt_u32 hr2lt (Nat.lt_of_le_of_lt (shiftRight_le_self _ _) hr2lt)
  rw [Nat.mod_eq_of_lt hout]

/-- C3: createRng seeds the generator with the FNV-1a 32-bit hash of the
seed string's character codes (h starting at 0x811C9DC5, h XOR b then
h * 0x01000193 mod 2 ^ 32 per unit), and every subsequent next() call
performs exactly the mulberry32 step written in the spec, so the full
output stream (state sequence and returned doubles) is the one the
spec's algorithm determines. -/
theorem createRng_matches_spec (units : List Nat) (n : Nat) :
    hashStringToInt units = specFnvHash units ∧
    sourceState units n = specState units n ∧
    sourceOutQAt units n = specOutQAt units n := by
  have hseed : hashStringToInt units = specFnvHash units := rfl
  have hstate : ∀ m, sourceState units m = specState units m := by
    intro m
    induction m with
    | zero => exact hseed
    | succ k ih =>
      show (mbNext (sourceState units k)).1 = specNextState (specState units k)
      rw [ih]; rfl
  refine ⟨hseed, hstate n, ?_⟩
  unfold sourceOutQAt specOutQAt sourceOutAt
  rw [mbNext_out_eq_spec, hstate n]

theorem floor_add_half (n : Int) (d : Nat) (hd : d ≠ 0) :
    ⌊(n : ℚ) / (d : ℚ) + 1 / 2⌋ = (2 * n + (d : Int)) / (2 * (d : Int)) := by
  have hd' : ((d : ℚ)) ≠ 0 := Nat.cast_ne_zero.2 hd
  have h : (n : ℚ) / (d : ℚ) + 1 / 2 = ((2 * n + (d : Int) : Int) : ℚ) / ((2 * d : ℕ) : ℚ) := by
    field_simp
    ring
  rw [h, Rat.floor_intCast_div_natCast]
  norm_num

theorem jsRound_eq_floor (q : ℚ) : jsRound q = ⌊q + 1 / 2⌋ := by
  have h := floor_add_half q.num q.den q.den_nz
  rw [Rat.num_div_den] at h
  exact h.symm

theorem intMulQ_eq (x : Int) (f : ℚ) : intMulQ x f = (x : ℚ) * f := by
  unfold intMulQ
  rw [Rat.mkRat_eq_div]
  conv_rhs => rw [← Rat.num_div_den f]
  push_cast
  ring

theorem jsRound_nonneg {q : ℚ} (h : 0 ≤ q) : 0 ≤ jsRound q := by
  rw [jsRound_eq_floor]
  exact Int.le_floor.2 (by push_cast; linarith)

theorem jsRound_le_int {q : ℚ} {n : Int} (h : q ≤ (n : ℚ)) : jsRound q ≤ n := by
  rw [jsRound_eq_floor]
  have h1 : ⌊q + 1 / 2⌋ ≤ ⌊(n : ℚ) + 1 / 2⌋ := Int.floor_le_floor (by linarith)
  have h2 : ⌊(n : ℚ) + 1 / 2⌋ = n + ⌊(1 / 2 : ℚ)⌋ := Int.floor_int_add n (1 / 2)
  have h3 : ⌊(1 / 2 : ℚ)⌋ = 0 := by norm_num
  omega

theorem chooseOther_false (ctx : GenCtx) (ci : IdentityDatasetEntry) (rng : Nat) :
    chooseOther ctx false ci rng = .ok (ci, rng) := rfl

theorem decideSide_balance (cfg : TrialConfig) (a L : Int) (rng : Nat)
    (hb : cfg.balanceSides = true) :
    decideSide cfg a L rng = (if a < L then Side.left else Side.right, rng) := by
  unfold decideSide
  rw [hb]
  simp

theorem ite_side_eq_left {c : Prop} [Decidable c] :
    ((if c then Side.left else Side.right) = Side.left) = c := by
  by_cases h : c <;> simp [h]

theorem ite_side_eq_right {c : Prop} [Decidable c] :
    ((if c then Side.left else Side.right) = Side.right) = ¬ c := by
  by_cases h : c <;> simp [h]

theorem genStep_props (ctx : GenCtx) (cell : Cell) (idx : Nat) (st : GenState)
    (tr : Trial) (st' : GenState) (h : genStep ctx cell idx st = .ok (tr, st')) :
    trialInvariantB tr = true ∧
      (ctx.config.balanceSides = true →
        tr.partnerSide =
            (if st.assignedLeft < ctx.partnerOnLeftCount then Side.left else Side.right) ∧
          st'.assignedLeft =
            (if st.assignedLeft < ctx.partnerOnLeftCount then st.assignedLeft + 1
             else st.assignedLeft)) := by
  unfold genStep at h
  simp only [bind, Except.bind, pure, Except.pure] at h
  repeat' split at h
  all_goals try exact (Except.noConfusion h)
  all_goals
    rw [Except.ok.injEq, Prod.mk.injEq] at h
    obtain ⟨htr, hst⟩ := h
    subst htr
    subst hst
  all_goals try simp_all [chooseOther_false, decideSide_balance, trialInvariantB, sideId,
    ite_side_eq_left, ite_side_eq_right]
  all_goals subst_vars
  all_goals try intro hb
  all_goals try simp_all [decideSide_balance, ite_side_eq_left, ite_side_eq_right]
  all_goals split <;> omega

theorem genLoop_inv (ctx : GenCtx) :
    ∀ (cells : List Cell) (idx : Nat) (st : GenState) (out : List Trial),
      genLoop ctx cells idx st = .ok out → out.all trialInvariantB = true := by
  intro cells
  induction cells with
  | nil =>
    intro idx st out h
    simp only [genLoop] at h
    rw [Except.ok.injEq] at h
    subst h
    rfl
  | cons c rest ih =>
    intro idx st out h
    simp only [genLoop, bind, Except.bind, pure, Except.pure] at h
    split at h
    · exact Except.noConfusion h
    · rename_i p heqStep
      split at h
      · exact Except.noConfusion h
      · rename_i outRest heqRest
        rw [Except.ok.injEq] at h
        subst h
        have h1 := (genStep_props ctx c idx st p.1 p.2 heqStep).1
        have h2 := ih (idx + 1) p.2 outRest heqRest
        simp [List.all_cons, h1, h2]

theorem genLoop_sides (ctx : GenCtx) (hbal : ctx.config.balanceSides = true) :
    ∀ (cells : List Cell) (idx : Nat) (st : GenState) (out : List Trial),
      genLoop ctx cells idx st = .ok out →
      out.length = cells.length ∧
      ∀ j (hj : j < out.length),
        (out.get ⟨j, hj⟩).partnerSide =
          if st.assignedLeft + (j : Int) < ctx.partnerOnLeftCount then Side.left
          else Side.right := by
  intro cells
  induction cells with
  | nil =>
    intro idx st out h
    simp only [genLoop] at h
    rw [Except.ok.injEq] at h
    subst h
    exact ⟨rfl, fun j hj => absurd hj (by simp)⟩
  | cons c rest ih =>
    intro idx st out h
    simp only [genLoop, bind, Except.bind, pure, Except.pure] at h
    split at h
    · exact Except.noConfusion h
    · rename_i p heqStep
      split at h
      · exact Except.noConfusion h
      · rename_i outRest heqRest
        rw [Except.ok.injEq] at h
        subst h
        obtain ⟨hside, hupd⟩ := (genStep_props ctx c idx st p.1 p.2 heqStep).2 hbal
        obtain ⟨hlen, hpos⟩ := ih (idx + 1) p.2 outRest heqRest
        refine ⟨by simp [hlen], ?_⟩
        intro j hj
        cases j with
        | zero =>
          simpa using hside
        | succ k =>
          have hk : k < outRest.length := by
            simpa using Nat.lt_of_succ_lt_succ hj
          have hr := hpos k hk
          have hget : (p.1 :: outRest).get ⟨k + 1, hj⟩ = outRest.get ⟨k, hk⟩ := rfl
          rw [hget, hr, hupd]
          have hcast : ((k : Int) + 1) = ((k + 1 : Nat) : Int) := by push_cast; ring
          split_ifs <;> first | rfl | (exfalso; omega)

/-- C1 counterexample: with total 2, familiarFraction one half,
partnerFractionWithinFamiliar 1, and availability (familiarNonPartner 0,
unfamiliar 1, partner 0) — an availability with a nonzero category —
the counts sum to 1, strictly less than the total of 2, refuting the
claim that the sum is below total only when all availabilities are zero. -/
theorem computeCounts_conservation_cx :
    (computeCounts 2 (mkRat 1 2) (mkRat 1 1) ⟨0, 1, 0⟩).nPartner +
        (computeCounts 2 (mkRat 1 2) (mkRat 1 1) ⟨0, 1, 0⟩).nFamiliarNonPartner +
        (computeCounts 2 (mkRat 1 2) (mkRat 1 1) ⟨0, 1, 0⟩).nUnfamiliar = 1 ∧
      (1 : Int) < 2 ∧ (Avail.mk 0 1 0).unfamiliar ≠ 0 := by
  refine ⟨by decide, by omega, by decide⟩

/-- C1 (amended): for total at least 1 and fractions in the unit
interval, the three counts computeCounts returns sum to total whenever
the familiar-non-partner availability is nonzero, or the partner and
unfamiliar availabilities are both nonzero; and when all three
availabilities are zero all three counts are zero. (The remaining
availability patterns can lose trials, as the counterexample shows.) -/
theorem computeCounts_conservation (total : Int) (ff pf : ℚ) (av : Avail)
    (htotal : 1 ≤ total) (hff : 0 ≤ ff ∧ ff ≤ 1) (hpf : 0 ≤ pf ∧ pf ≤ 1) :
    (0 < av.familiarNonPartner ∨ 0 < av.partner ∧ 0 < av.unfamiliar →
        (computeCounts total ff pf av).nPartner +
            (computeCounts total ff pf av).nFamiliarNonPartner +
            (computeCounts total ff pf av).nUnfamiliar = total) ∧
      (av.familiarNonPartner = 0 ∧ av.unfamiliar = 0 ∧ av.partner = 0 →
        (computeCounts total ff pf av).nPartner = 0 ∧
            (computeCounts total ff pf av).nFamiliarNonPartner = 0 ∧
            (computeCounts total ff pf av).nUnfamiliar = 0) := by
  have htQ : (0 : ℚ) ≤ (total : ℚ) := by exact_mod_cast (by omega : (0 : Int) ≤ total)
  have hA0 : 0 ≤ jsRound (intMulQ total ff) :=
    jsRound_nonneg (by rw [intMulQ_eq]; exact mul_nonneg htQ hff.1)
  have hA1 : jsRound (intMulQ total ff) ≤ total :=
    jsRound_le_int (by
      rw [intMulQ_eq]
      calc (total : ℚ) * ff ≤ (total : ℚ) * 1 := mul_le_mul_of_nonneg_left hff.2 htQ
        _ = (total : ℚ) := mul_one _)
  have hAQ : (0 : ℚ) ≤ ((jsRound (intMulQ total ff) : Int) : ℚ) := by exact_mod_cast hA0
  have hB0 : 0 ≤ jsRound (intMulQ (jsRound (intMulQ total ff)) pf) :=
    jsRound_nonneg (by rw [intMulQ_eq]; exact mul_nonneg hAQ hpf.1)
  have hB1 : jsRound (intMulQ (jsRound (intMulQ total ff)) pf) ≤ jsRound (intMulQ total ff) :=
    jsRound_le_int (by
      rw [intMulQ_eq]
      calc ((jsRound (intMulQ total ff) : Int) : ℚ) * pf
          ≤ ((jsRound (intMulQ total ff) : Int) : ℚ) * 1 := mul_le_mul_of_nonneg_left hpf.2 hAQ
        _ = _ := mul_one _)
  obtain ⟨f, u, p⟩ := av
  simp only [computeCounts]
  split_ifs <;> omega

/-- C1 witness: the amended conservation statement at a concrete input
with every hypothesis discharged. -/
theorem computeCounts_conservation_witness :
    (1 : Int) ≤ 10 ∧
      (computeCounts 10 (mkRat 1 2) (mkRat 1 2) ⟨2, 3, 1⟩).nPartner +
          (computeCounts 10 (mkRat 1 2) (mkRat 1 2) ⟨2, 3, 1⟩).nFamiliarNonPartner +
          (computeCounts 10 (mkRat 1 2) (mkRat 1 2) ⟨2, 3, 1⟩).nUnfamiliar = 10 :=
  ⟨by omega,
    (computeCounts_conservation 10 (mkRat 1 2) (mkRat 1 2) ⟨2, 3, 1⟩ (by omega)
          ⟨by norm_num [Rat.mkRat_eq_div], by norm_num [Rat.mkRat_eq_div]⟩
          ⟨by norm_num [Rat.mkRat_eq_div], by norm_num [Rat.mkRat_eq_div]⟩).1
      (Or.inl (by decide))⟩

theorem core_inversion (m : DatasetManifest) (s : JsStr) (c : TrialConfig)
    (trials : List Trial) (w : List TrialGenWarning) (sid pid : JsStr)
    (h : generateTrialsCore m s c = .ok (trials, w, sid, pid)) :
    (∃ ctx cells st0, genLoop ctx cells 0 st0 = .ok trials ∧ ctx.config = c ∧
        st0.assignedLeft = 0 ∧
        ctx.partnerOnLeftCount =
          (if c.balanceSides = true then (cells.length : Int) / 2 else -1)) ∧
    (∃ av : Avail, av.partner = 1 ∧
        w = (computeCounts c.totalTrials c.familiarFraction
              c.partnerFractionWithinFamiliar av).warnings) := by
  unfold generateTrialsCore at h
  simp only [bind, Except.bind, pure, Except.pure] at h
  repeat' split at h
  all_goals try exact (Except.noConfusion h)
  all_goals try (exfalso; omega)
  rw [Except.ok.injEq] at h
  simp only [Prod.mk.injEq] at h
  obtain ⟨h1, h2, h3, h4⟩ := h
  subst h1
  subst h2
  subst h3
  subst h4
  exact ⟨⟨_, _, _, by assumption, rfl, rfl, rfl⟩, ⟨_, rfl, rfl⟩⟩

theorem generateTrials_ok_inv (m : DatasetManifest) (s : JsStr) (c : TrialConfig)
    (now : JsStr) (r : TrialSet) (h : generateTrials m s c now = .ok r) :
    ∃ w sid pid, generateTrialsCore m s c = .ok (r.trials, w, sid, pid) ∧
      r.meta.warnings = w := by
  unfold generateTrials at h
  split at h
  · exact Except.noConfusion h
  · rename_i v trials warnings subjId partnerId heq
    rw [Except.ok.injEq] at h
    subst h
    exact ⟨warnings, subjId, partnerId, heq, rfl⟩


theorem posSpec_counts {α : Type} (p : α → Bool) :
    ∀ (l : List α) (K : Nat),
      (∀ j (hj : j < l.length), p (l.get ⟨j, hj⟩) = decide (j < K)) →
      (l.take K).all p = true ∧ (l.drop K).all (fun a => ! p a) = true ∧
        l.countP p = min K l.length := by
  intro l
  induction l with
  | nil => intro K h; simp
  | cons a tl ih =>
    intro K h
    have h0 : p a = decide (0 < K) := h 0 (by simp)
    cases K with
    | zero =>
      have htl : ∀ j (hj : j < tl.length), p (tl.get ⟨j, hj⟩) = decide (j < 0) := by
        intro j hj
        have := h (j + 1) (by simpa using Nat.succ_lt_succ hj)
        simpa using this
      obtain ⟨ht, hd, hc⟩ := ih 0 htl
      have hpa : p a = false := by simpa using h0
      refine ⟨by simp, ?_, ?_⟩
      · simpa [List.all_cons, hpa] using hd
      · simp [List.countP_cons, hpa, hc]
    | succ K1 =>
      have htl : ∀ j (hj : j < tl.length), p (tl.get ⟨j, hj⟩) = decide (j < K1) := by
        intro j hj
        have := h (j + 1) (by simpa using Nat.succ_lt_succ hj)
        simpa [Nat.succ_lt_succ_iff] using this
      obtain ⟨ht, hd, hc⟩ := ih K1 htl
      have hpa : p a = true := by simpa using h0
      refine ⟨?_, ?_, ?_⟩
      · simp [List.take_succ_cons, List.all_cons, hpa, ht]
      · simpa [List.drop_succ_cons] using hd
      · simp only [List.countP_cons, hpa, if_pos, List.length_cons, hc]
        omega

/-- C4: for every trial generateTrials emits, a partner call's correct
side equals the partner side, and a non-partner call's correct side is
the side whose image belongs to the calling identity. -/
theorem generateTrials_correct_side (m : DatasetManifest) (s : JsStr) (c : TrialConfig)
    (now : JsStr) (r : TrialSet) (h : generateTrials m s c now = .ok r) :
    r.trials.all trialInvariantB = true := by
  obtain ⟨w, sid, pid, hcore, -⟩ := generateTrials_ok_inv m s c now r h
  obtain ⟨⟨ctx, cells, st0, hloop, -, -, -⟩, -⟩ := core_inversion m s c r.trials w sid pid hcore
  exact genLoop_inv ctx cells 0 st0 r.trials hloop

/-- C5: whenever generateTrials runs with balanceSides set and returns N
trials, exactly floor(N/2) of them have partnerSide left, and they are
the first floor(N/2) trials in schedule order (the remainder are right). -/
theorem generateTrials_side_balance (m : DatasetManifest) (s : JsStr) (c : TrialConfig)
    (now : JsStr) (r : TrialSet) (hbal : c.balanceSides = true)
    (h : generateTrials m s c now = .ok r) :
    r.trials.countP (fun t => decide (t.partnerSide = Side.left)) = r.trials.length / 2 ∧
      (r.trials.take (r.trials.length / 2)).all
          (fun t => decide (t.partnerSide = Side.left)) = true ∧
      (r.trials.drop (r.trials.length / 2)).all
          (fun t => decide (t.partnerSide = Side.right)) = true := by
  obtain ⟨w, sid, pid, hcore, -⟩ := generateTrials_ok_inv m s c now r h
  obtain ⟨⟨ctx, cells, st0, hloop, hcfg, ha0, hL⟩, -⟩ :=
    core_inversion m s c r.trials w sid pid hcore
  have hbal2 : ctx.config.balanceSides = true := by rw [hcfg]; exact hbal
  obtain ⟨hlen, hpos⟩ := genLoop_sides ctx hbal2 cells 0 st0 r.trials hloop
  rw [hbal] at hL
  simp only [if_pos] at hL
  have hspec : ∀ j (hj : j < r.trials.length),
      (fun t => decide (t.partnerSide = Side.left)) (r.trials.get ⟨j, hj⟩) =
        decide (j < r.trials.length / 2) := by
    intro j hj
    have hp := hpos j hj
    rw [ha0, hL] at hp
    simp only []
    by_cases hc : (0 : Int) + (j : Int) < (cells.length : Int) / 2
    · have hcn : j < r.trials.length / 2 := by
        rw [hlen]
        omega
      rw [hp, if_pos hc]
      simp [hcn]
    · have hcn : ¬ j < r.trials.length / 2 := by
        rw [hlen]
        omega
      rw [hp, if_neg hc]
      simp [hcn]
  obtain ⟨htake, hdrop, hcount⟩ :=
    posSpec_counts (fun t => decide (t.partnerSide = Side.left)) r.trials
      (r.trials.length / 2) hspec
  have hfun : (fun t : Trial => ! decide (t.partnerSide = Side.left)) =
      (fun t : Trial => decide (t.partnerSide = Side.right)) := by
    funext t
    cases htp : t.partnerSide <;> simp [htp]
  refine ⟨?_, htake, ?_⟩
  · rw [hcount]
    omega
  · rw [hfun] at hdrop
    exact hdrop


/-- C2 (amended): two generateTrials calls with identical arguments agree
on everything except meta.generatedAt, which echoes the wall-clock
reading of each call: errors coincide exactly, and successful results
have identical trials and identical meta fields apart from generatedAt.
Byte-identical TrialSets are not guaranteed, as the counterexample
shows. -/
theorem generateTrials_deterministic (m : DatasetManifest) (s : JsStr) (c : TrialConfig)
    (nowA nowB : JsStr) :
    (∀ e, generateTrials m s c nowA = .error e ↔ generateTrials m s c nowB = .error e) ∧
      (∀ rA rB, generateTrials m s c nowA = .ok rA → generateTrials m s c nowB = .ok rB →
        rA.trials = rB.trials ∧ rA.meta.subjectId = rB.meta.subjectId ∧
          rA.meta.partnerId = rB.meta.partnerId ∧ rA.meta.totalTrials = rB.meta.totalTrials ∧
          rA.meta.seed = rB.meta.seed ∧ rA.meta.dataDirLabel = rB.meta.dataDirLabel ∧
          rA.meta.config = rB.meta.config ∧ rA.meta.warnings = rB.meta.warnings ∧
          rA.meta.generatedAt = nowA ∧ rB.meta.generatedAt = nowB) := by
  unfold generateTrials
  cases h : generateTrialsCore m s c with
  | error e =>
    constructor
    · intro e1
      exact Iff.rfl
    · intro rA rB hA
      exact Except.noConfusion hA
  | ok v =>
    obtain ⟨trials, warnings, sid, pid⟩ := v
    constructor
    · intro e1
      constructor <;> (intro hx; exact Except.noConfusion hx)
    · intro rA rB hA hB
      injection hA with hA1
      injection hB with hB1
      subst hA1
      subst hB1
      exact ⟨rfl, rfl, rfl, rfl, rfl, rfl, rfl, rfl, rfl, rfl⟩

/-- C2 counterexample: the same manifest, subject, and config generated
at two different wall-clock instants yield TrialSets that are not
byte-identical — meta.generatedAt differs. -/
theorem generateTrials_determinism_cx :
    generateTrials manifest0 ("A".data) config0 now1 ≠
      generateTrials manifest0 ("A".data) config0 now2 := by
  intro h
  have h2 : trialSet0.meta.generatedAt = trialSet0b.meta.generatedAt := by
    unfold trialSet0 trialSet0b
    rw [h]
  have h3 : now1 = now2 := h2
  exact absurd h3 (by decide)

theorem computeCounts_no_partner_warning (total : Int) (ff pf : ℚ) (av : Avail)
    (hp : av.partner ≠ 0) :
    (computeCounts total ff pf av).warnings.countP
        (fun w => decide (w.message = noPartnerMsg)) = 0 := by
  simp only [computeCounts]
  split_ifs <;> first | omega | decide

/-- C10: generateTrials throws before computing availabilities whenever
the resolved partner lacks images or audio (with the corresponding
message), and consequently every successful run's computeCounts saw
partner availability 1, so the no-partner-media warning never appears
in the returned warnings. -/
theorem generateTrials_partner_media (m : DatasetManifest) (s : JsStr) (c : TrialConfig)
    (now : JsStr) (pools : Pools) (hbp : buildPools m s = .ok pools) :
    (pools.partner.imageExemplars = [] →
        generateTrials m s c now = .error noPartnerImagesMsg) ∧
      (pools.partner.imageExemplars ≠ [] → pools.partner.audioExemplars = [] →
        generateTrials m s c now = .error noPartnerAudiosMsg) ∧
      (∀ r, generateTrials m s c now = .ok r →
        ∃ av : Avail, av.partner = 1 ∧
          r.meta.warnings = (computeCounts c.totalTrials c.familiarFraction
              c.partnerFractionWithinFamiliar av).warnings ∧
          r.meta.warnings.countP (fun w => decide (w.message = noPartnerMsg)) = 0) := by
  refine ⟨?_, ?_, ?_⟩
  · intro himg
    unfold generateTrials generateTrialsCore
    simp only [bind, Except.bind, pure, Except.pure]
    rw [hbp]
    simp [himg]
  · intro himg haud
    have himg2 : ¬ pools.partner.imageExemplars.length = 0 := by
      simpa [List.length_eq_zero] using himg
    unfold generateTrials generateTrialsCore
    simp only [bind, Except.bind, pure, Except.pure]
    rw [hbp]
    simp [himg2, haud]
  · intro r h
    obtain ⟨w, sid, pid, hcore, hw⟩ := generateTrials_ok_inv m s c now r h
    obtain ⟨-, av, hp1, hwc⟩ := core_inversion m s c r.trials w sid pid hcore
    refine ⟨av, hp1, by rw [hw, hwc], ?_⟩
    rw [hw, hwc]
    exact computeCounts_no_partner_warning _ _ _ _ (by omega)


/-- C2 witness: the amended determinism theorem applied to the concrete
fixture runs at the two wall-clock readings. -/
theorem generateTrials_deterministic_witness :
    trialSet0.trials = trialSet0b.trials ∧ trialSet0.meta.generatedAt = now1 := by
  have hdet := (generateTrials_deterministic manifest0 ("A".data) config0 now1 now2).2
      trialSet0 trialSet0b rfl rfl
  exact ⟨hdet.1, hdet.2.2.2.2.2.2.2.2.1⟩

/-- C4 witness: the correctness invariant evaluated on the concrete
fixture run. -/
theorem generateTrials_correct_side_witness :
    trialSet0.trials.all trialInvariantB = true :=
  generateTrials_correct_side manifest0 ("A".data) config0 now1 trialSet0 rfl

/-- C5 witness: the side-balance count evaluated on the concrete fixture
run, with the balanceSides hypothesis discharged. -/
theorem generateTrials_side_balance_witness :
    config0.balanceSides = true ∧
      trialSet0.trials.countP (fun t => decide (t.partnerSide = Side.left)) =
        trialSet0.trials.length / 2 :=
  ⟨rfl, (generateTrials_side_balance manifest0 ("A".data) config0 now1 trialSet0 rfl rfl).1⟩

/-- C10 witness: on the fixture whose partner lacks image exemplars,
generateTrials fails with the partner-images message. -/
theorem generateTrials_partner_media_witness :
    generateTrials manifest1 ("A".data) config0 now1 = .error noPartnerImagesMsg :=
  (generateTrials_partner_media manifest1 ("A".data) config0 now1 pools1 rfl).1 rfl

theorem checkSegments_ok (orig : JsStr) :
    ∀ segs, checkSegments orig segs = .ok () ↔
      ∀ seg ∈ segs, seg ≠ [] ∧ seg ≠ ['.'] ∧ seg ≠ ['.', '.'] := by
  intro segs
  induction segs with
  | nil => simp [checkSegments]
  | cons seg rest ih =>
    unfold checkSegments
    split_ifs with h1 h2
    · simp [h1]
    · constructor
      · intro hx
        cases hx
      · intro hx
        have hs := (hx seg (by simp)).2
        rcases h2 with h2 | h2
        · exact absurd h2 hs.1
        · exact absurd h2 hs.2
    · rw [ih]
      constructor
      · intro hall seg2 hmem
        rcases List.mem_cons.1 hmem with rfl | hmem2
        · exact ⟨h1, by tauto, by tauto⟩
        · exact hall seg2 hmem2
      · intro hall seg2 hmem
        exact hall seg2 (List.mem_cons_of_mem _ hmem)

theorem assertSafeInternalPath_ok_iff (p : JsStr) :
    assertSafeInternalPath p = .ok () ↔
      (p ≠ [] ∧ p.head? ≠ some '/' ∧ p.head? ≠ some '\\' ∧ '\\' ∉ p ∧
        ∀ seg ∈ jsSplit '/' p, seg ≠ [] ∧ seg ≠ ['.'] ∧ seg ≠ ['.', '.']) := by
  unfold assertSafeInternalPath
  split_ifs with h1 h2 h3
  · constructor
    · intro hx
      cases hx
    · intro hx; exact absurd h1 hx.1
  · constructor
    · intro hx
      cases hx
    · intro hx
      rcases h2 with h2 | h2
      · exact absurd h2 hx.2.1
      · exact absurd h2 hx.2.2.1
  · constructor
    · intro hx
      cases hx
    · intro hx; exact absurd h3 hx.2.2.2.1
  · rw [checkSegments_ok]
    constructor
    · intro hall
      refine ⟨h1, ?_, ?_, h3, hall⟩
      · intro hq; exact h2 (Or.inl hq)
      · intro hq; exact h2 (Or.inr hq)
    · intro hx; exact hx.2.2.2.2


/-- C6: assertSafeInternalPath returns exactly when the path is
non-empty, does not start with a slash or backslash, contains no
backslash, and has no empty, dot, or dot-dot segment of its
slash-splitting; it throws otherwise. In particular it rejects ../x,
/x, a backslashed path, and the empty path, and accepts
media/images/A1.jpg. -/
theorem assertSafeInternalPath_spec :
    (∀ p : JsStr,
        assertSafeInternalPath p = .ok () ↔
          (p ≠ [] ∧ p.head? ≠ some '/' ∧ p.head? ≠ some '\\' ∧ '\\' ∉ p ∧
            ∀ seg ∈ jsSplit '/' p, seg ≠ [] ∧ seg ≠ ['.'] ∧ seg ≠ ['.', '.'])) ∧
      isOkB (assertSafeInternalPath "../x".data) = false ∧
      isOkB (assertSafeInternalPath "/x".data) = false ∧
      isOkB (assertSafeInternalPath "a\\b".data) = false ∧
      isOkB (assertSafeInternalPath "".data) = false ∧
      isOkB (assertSafeInternalPath "media/images/A1.jpg".data) = true :=
  ⟨assertSafeInternalPath_ok_iff, by decide, by decide, by decide, by decide, by decide⟩

/-- C7 counterexample: with a global policy and the padded override
" x " recorded for subject A, deriveSubjectSeed returns the trimmed
string "x", not the override itself as the claim states. -/
theorem deriveSubjectSeed_cx :
    deriveSubjectSeed polC7 ("A".data) = .ok ("x".data) ∧ "x".data ≠ " x ".data :=
  ⟨rfl, by decide⟩

/-- C7 (amended): under a per_subject policy the recorded seed is
returned when present and non-empty, and the subject-naming error is
thrown when it is absent or empty; under a global policy the trimmed
override is returned when an override is present, non-empty, and not
all whitespace, otherwise globalSeed::subjectId is returned when the
global seed is non-blank, and the global-seed error is thrown when it
is blank. -/
theorem deriveSubjectSeed_spec (sid : JsStr) :
    (∀ seeds s, lookupFirstBy seeds sid = some s → s ≠ [] →
        deriveSubjectSeed (.perSubject seeds) sid = .ok s) ∧
      (∀ seeds, lookupFirstBy seeds sid = none ∨ lookupFirstBy seeds sid = some [] →
        deriveSubjectSeed (.perSubject seeds) sid = .error (missingSeedMsg sid)) ∧
      (∀ g overrides o, lookupFirstBy overrides sid = some o → o ≠ [] → jsTrim o ≠ [] →
        deriveSubjectSeed (.global g overrides) sid = .ok (jsTrim o)) ∧
      (∀ g overrides,
        (lookupFirstBy overrides sid = none ∨
            ∃ o, lookupFirstBy overrides sid = some o ∧ (o = [] ∨ jsTrim o = [])) →
          (jsTrim g ≠ [] → deriveSubjectSeed (.global g overrides) sid =
              .ok (g ++ "::".data ++ sid)) ∧
            (jsTrim g = [] → deriveSubjectSeed (.global g overrides) sid =
              .error globalSeedRequiredMsg)) := by
  have hfall : ∀ g : JsStr,
      (jsTrim g ≠ [] → globalFallback g sid = .ok (g ++ "::".data ++ sid)) ∧
        (jsTrim g = [] → globalFallback g sid = .error globalSeedRequiredMsg) := by
    intro g
    unfold globalFallback
    constructor
    · intro hg
      rw [if_neg]
      push_neg
      refine ⟨?_, ?_⟩
      · intro hge
        apply hg
        rw [hge]
        rfl
      · simpa [List.length_eq_zero] using hg
    · intro hg
      rw [if_pos]
      right
      simpa [List.length_eq_zero] using hg
  refine ⟨?_, ?_, ?_, ?_⟩
  · intro seeds s hl hs
    simp only [deriveSubjectSeed]
    rw [hl]
    simp [hs]
  · intro seeds hl
    simp only [deriveSubjectSeed]
    rcases hl with hl | hl
    · rw [hl]
    · rw [hl]
      simp
  · intro g overrides o hl ho hto
    simp only [deriveSubjectSeed]
    rw [hl]
    have hlen : 0 < (jsTrim o).length := List.length_pos.2 hto
    simp [ho, hlen]
  · intro g overrides hl
    rcases hl with hl | ⟨o, hl, hcase⟩
    · simp only [deriveSubjectSeed]
      rw [hl]
      exact hfall g
    · have hneg : ¬ (o ≠ [] ∧ 0 < (jsTrim o).length) := by
        rcases hcase with hc | hc <;> simp [hc]
      simp only [deriveSubjectSeed]
      rw [hl]
      simp only [if_neg hneg]
      exact hfall g

/-- C7 witness: the amended theorem's global fallback clause at a
concrete policy. -/
theorem deriveSubjectSeed_witness :
    deriveSubjectSeed (.global ("g".data) []) ("A".data) = .ok ("g::A".data) :=
  ((deriveSubjectSeed_spec ("A".data)).2.2.2 ("g".data) [] (Or.inl rfl)).1 (by decide)

theorem mbNext_out_lt (t : Nat) : (mbNext t).2 < U32 := by
  have hu : (0 : Nat) < U32 := u32_pos
  show (let t1 := (t + 0x6d2b79f5) % U32
        let r1 := imul (t1 ^^^ (t1 >>> 15)) (1 ||| t1)
        let r2 := r1 ^^^ ((r1 + imul (r1 ^^^ (r1 >>> 7)) (61 ||| r1)) % U32)
        r2 ^^^ (r2 >>> 14)) < U32
  simp only [imul]
  set t1 := (t + 0x6d2b79f5) % U32 with ht1
  set r1 := (t1 ^^^ (t1 >>> 15)) * (1 ||| t1) % U32 with hr1
  have hr1lt : r1 < U32 := Nat.mod_lt _ hu
  set r2 := r1 ^^^ ((r1 + (r1 ^^^ (r1 >>> 7)) * (61 ||| r1) % U32) % U32) with hr2
  have hr2lt : r2 < U32 := xor_lt_u32 hr1lt (Nat.mod_lt _ hu)
  exact xor_lt_u32 hr2lt (Nat.lt_of_le_of_lt (shiftRight_le_self _ _) hr2lt)

/-- C8: pickOne never throws: on a non-empty sequence it returns the
element at floor(next() times the length), which is a member of the
sequence; on the empty sequence the element read is undefined (none)
rather than an error, so callers must ensure non-emptiness themselves. -/
theorem jsPickOne_spec {α : Type} (xs : List α) (t : Nat) :
    (xs ≠ [] → ∃ a, (jsPickOne xs t).1 = some a ∧ a ∈ xs ∧
        xs[floorMul (mbNext t).2 xs.length]? = some a) ∧
      (xs = [] → (jsPickOne xs t).1 = none) ∧ (jsPickOne xs t).2 = (mbNext t).1 := by
  refine ⟨?_, ?_, rfl⟩
  · intro hne
    have hlen : 0 < xs.length := List.length_pos.2 hne
    have hidx : floorMul (mbNext t).2 xs.length < xs.length := by
      unfold floorMul
      rw [Nat.div_lt_iff_lt_mul u32_pos]
      calc (mbNext t).2 * xs.length < U32 * xs.length :=
            (Nat.mul_lt_mul_right hlen).mpr (mbNext_out_lt t)
        _ = xs.length * U32 := Nat.mul_comm _ _
    refine ⟨xs.get ⟨floorMul (mbNext t).2 xs.length, hidx⟩, ?_, List.get_mem xs _ hidx, ?_⟩
    · show xs[floorMul (mbNext t).2 xs.length]? = _
      rw [List.getElem?_eq_getElem hidx]
      rfl
    · rw [List.getElem?_eq_getElem hidx]
      rfl
  · intro he
    subst he
    rfl

/-- C8 witness: the pickOne specification at a concrete list and rng
state. -/
theorem jsPickOne_witness :
    (([1, 2, 3] : List Nat) ≠ []) ∧
      ∃ a, (jsPickOne ([1, 2, 3] : List Nat) 5).1 = some a ∧ a ∈ ([1, 2, 3] : List Nat) ∧
        ([1, 2, 3] : List Nat)[floorMul (mbNext 5).2 ([1, 2, 3] : List Nat).length]? = some a :=
  ⟨by decide, (jsPickOne_spec ([1, 2, 3] : List Nat) 5).1 (by decide)⟩

/-- C9: validateManifestShape either throws or returns its input value
unchanged: the coerced exemplar records built along the way are
discarded, so every field of the parsed JSON survives into the result. -/
theorem validateManifestShape_id (v w : JsVal) (h : validateManifestShape v = .ok w) :
    w = v := by
  unfold validateManifestShape at h
  repeat' split at h
  all_goals try exact (Except.noConfusion h)
  all_goals
    rw [Except.ok.injEq] at h
    exact h.symm

/-- C9 witness: the identity theorem applied to a concrete parsed
manifest. -/
theorem validateManifestShape_id_witness :
    validateManifestShape manifestJson0 = .ok manifestJson0 := by
  have h0 : validateManifestShape manifestJson0 = .ok manifestJson0Out := rfl
  have h1 : manifestJson0Out = manifestJson0 :=
    validateManifestShape_id manifestJson0 manifestJson0Out h0
  rw [h0, h1]

end MarmosetPrep
